import Mathlib

/-!
Verification development for the TOSCA device-control core.

The definitions below are a shallow embedding of the two engines of the
repository: the frame-acquisition controller
(`src/hardware/vmpy_camera.py`, class `VMPyCameraController`) and the
motion-sequence widget (`src/gui/actuator_control.py`, class
`ActuatorControlWidget`), together with the relevant parts of the camera
GUI widget (`src/gui/camera_display.py`, class `CameraDisplayWidget`).
Vendor-driver outcomes (frame status, calls that raise) are passed in as
explicit environment values; Python `try`/`except`/`finally` control flow
becomes explicit branching on those values.
-/

/-! ## Frame acquisition: `VMPyCameraController._frame_handler`

The handler body (vmpy_camera.py lines 180-210) is a `try` block that
processes the frame, an `except` that logs, and a `finally` that requeues
the buffer via `cam.queue_frame(frame)`; a `VmbCameraError` raised by the
requeue makes the handler call `self.stop_stream()` directly, any other
exception is only logged.  We embed the handler as the list of externally
visible actions it performs, in order, as a function of the driver-side
outcomes. -/

/-- Status of a delivered frame, as tested by the handler: `Complete`,
`Incomplete`, or any other (error) status. -/
inductive FrameStatus where
  | Complete
  | Incomplete
  | Error
deriving DecidableEq

/-- Outcome of the `cam.queue_frame(frame)` call in the handler's
`finally` block: it returns normally, raises `VmbCameraError`, or raises
some other exception. -/
inductive RequeueOutcome where
  | ok
  | vmbError
  | otherError
deriving DecidableEq

/-- Driver-side environment of one `_frame_handler` invocation: the
frame's status, whether converting/storing the frame raises, and the
outcome of the requeue call. -/
structure HandlerEnv where
  status : FrameStatus
  convertRaises : Bool
  requeue : RequeueOutcome
deriving DecidableEq

/-- Externally visible actions of one `_frame_handler` invocation. -/
inductive HandlerAction where
  | storeFrame
  | logIncomplete
  | logErrorStatus
  | logProcessingError
  | queueFrame
  | logRequeueError
  | callStopStreamSync
  | logUnexpectedRequeueError
deriving DecidableEq

/-- Embedding of `VMPyCameraController._frame_handler` (vmpy_camera.py
lines 180-210) as its ordered action trace.  The `try` body stores the
frame only for a `Complete` status whose conversion does not raise; the
`finally` block always performs the `queue_frame` call, and on
`VmbCameraError` from that call the handler invokes `self.stop_stream()`
synchronously. -/
def frameHandlerTrace (env : HandlerEnv) : List HandlerAction :=
  (if env.status = FrameStatus.Complete then
    (if env.convertRaises then [HandlerAction.logProcessingError]
     else [HandlerAction.storeFrame])
   else if env.status = FrameStatus.Incomplete then [HandlerAction.logIncomplete]
   else [HandlerAction.logErrorStatus])
  ++
  (match env.requeue with
   | RequeueOutcome.ok => [HandlerAction.queueFrame]
   | RequeueOutcome.vmbError =>
       [HandlerAction.queueFrame, HandlerAction.logRequeueError,
        HandlerAction.callStopStreamSync]
   | RequeueOutcome.otherError =>
       [HandlerAction.queueFrame, HandlerAction.logUnexpectedRequeueError])

/-! ## Frame acquisition: controller state, `stop_stream`, `capture_frame`,
`get_current_frame` -/

/-- State of `VMPyCameraController` relevant to streaming: `is_running`,
whether `self.camera` is set, and the `current_frame` slot (frames are
abstracted by a numeric identity). -/
structure CamState where
  isRunning : Bool
  hasCamera : Bool
  currentFrame : Option Nat
deriving DecidableEq

/-- Outcome of the `cam.stop_streaming()` call inside `stop_stream`. -/
inductive StopOutcome where
  | ok
  | vmbError
  | otherError
deriving DecidableEq

/-- Embedding of `VMPyCameraController.stop_stream` (vmpy_camera.py lines
239-274).  Early-returns `True` when not running and `False` when the
camera is gone; otherwise clears `is_running`, calls
`cam.stop_streaming()` (outcome `env`), and in a `finally` block clears
the `current_frame` slot whether or not that call raised. -/
def stop_stream (s : CamState) (env : StopOutcome) : CamState × Bool :=
  if s.isRunning = false then (s, true)
  else if s.hasCamera = false then (s, false)
  else
    let s1 : CamState := { s with isRunning := false, currentFrame := none }
    match env with
    | StopOutcome.ok => (s1, true)
    | StopOutcome.vmbError => (s1, false)
    | StopOutcome.otherError => (s1, false)

/-- Embedding of `VMPyCameraController.get_current_frame` (vmpy_camera.py
lines 304-310): returns a copy of the slot, or `none` when it is empty. -/
def get_current_frame (s : CamState) : Option Nat :=
  s.currentFrame

/-- Outcome of the `cam.get_frame(timeout_ms=2000)` call inside
`capture_frame`: a frame with the given status, or a raised exception. -/
inductive GetFrameOutcome where
  | frame (st : FrameStatus)
  | vmbRaise
  | otherRaise
deriving DecidableEq

/-- Observable result of one `capture_frame` call: whether the
streaming-active warning was logged, the timeout of the device frame
request if one was issued, and whether a frame was returned. -/
structure CaptureLog where
  warnedStreaming : Bool
  deviceRequestTimeoutMs : Option Nat
  returnedFrame : Bool
deriving DecidableEq

/-- Embedding of `VMPyCameraController.capture_frame` (vmpy_camera.py
lines 277-302).  When streaming is active it only logs a warning and
falls through; when no camera is set it returns `None`; otherwise it
issues `cam.get_frame(timeout_ms=2000)` and returns the frame exactly
when its status is `Complete`. -/
def capture_frame (s : CamState) (env : GetFrameOutcome) : CaptureLog :=
  let warned := s.isRunning
  if s.hasCamera = false then
    { warnedStreaming := warned, deviceRequestTimeoutMs := none, returnedFrame := false }
  else
    match env with
    | GetFrameOutcome.frame FrameStatus.Complete =>
        { warnedStreaming := warned, deviceRequestTimeoutMs := some 2000,
          returnedFrame := true }
    | GetFrameOutcome.frame _ =>
        { warnedStreaming := warned, deviceRequestTimeoutMs := some 2000,
          returnedFrame := false }
    | GetFrameOutcome.vmbRaise =>
        { warnedStreaming := warned, deviceRequestTimeoutMs := some 2000,
          returnedFrame := false }
    | GetFrameOutcome.otherRaise =>
        { warnedStreaming := warned, deviceRequestTimeoutMs := some 2000,
          returnedFrame := false }

/-! ## Frame acquisition: camera selection inside `initialize`
(vmpy_camera.py lines 90-117) -/

/-- Identity of one enumerated camera, with the three fields the
selection loop compares against (`get_id`, `get_serial`, `get_model`). -/
structure CamInfo where
  camId : String
  serial : String
  modelName : String
deriving DecidableEq

/-- Test of the selection loop body: the requested identifier equals the
camera's id, serial, or model name. -/
def camMatches (cid : String) (c : CamInfo) : Bool :=
  cid = c.camId || cid = c.serial || cid = c.modelName

/-- Embedding of the camera-selection part of
`VMPyCameraController.initialize` (vmpy_camera.py lines 90-117).  With no
cameras it fails (`none`).  With a requested identifier it scans for a
match; when none matches it falls back to the first enumerated camera
(result flag `true` records the fallback warning).  With no identifier
it takes the first camera. -/
def selectCamera (cameraId : Option String) (avail : List CamInfo) :
    Option (CamInfo × Bool) :=
  match avail with
  | [] => none
  | c0 :: _ =>
    match cameraId with
    | none => some (c0, false)
    | some cid =>
      match avail.find? (fun c => camMatches cid c) with
      | some c => some (c, false)
      | none => some (c0, true)

/-! ## Pixel-format configuration: controller and connect flow
(vmpy_camera.py lines 76-178, camera_display.py lines 317-350) -/

/-- Controller state relevant to format configuration: whether
`self.camera` is set and the `self.pixel_format` attribute. -/
structure CtrlState where
  cameraOpen : Bool
  pixelFormat : String
deriving DecidableEq

/-- Device-side format state: the advertised format set (order as
enumerated) and the currently active format. -/
structure DevState where
  advertised : List String
  active : String
deriving DecidableEq

/-- Embedding of the format-relevant behavior of
`VMPyCameraController.initialize` (vmpy_camera.py lines 76-178), given a
camera is found.  If `self.camera` is already set it returns `True`
without touching the device.  Otherwise it opens the camera and tries
`cam.set_pixel_format`; on failure (requested format not advertised) it
logs a warning and records the device's current format instead. -/
def ctrlInitFormat (c : CtrlState) (d : DevState) : CtrlState × DevState :=
  if c.cameraOpen then (c, d)
  else
    if d.advertised.contains c.pixelFormat then
      ({ cameraOpen := true, pixelFormat := c.pixelFormat },
       { d with active := c.pixelFormat })
    else
      ({ cameraOpen := true, pixelFormat := d.active }, d)

/-- Test used by `CameraDisplayWidget.on_connect_camera` for an
OpenCV-displayable format: name `Bgr8` or `Mono8`. -/
def displayCompatible (f : String) : Bool :=
  f = ("Bgr8" : String) || f = ("Mono8" : String)

/-- Embedding of the format part of
`CameraDisplayWidget.on_connect_camera` (camera_display.py lines
317-350).  It runs the controller's initialization with the requested
format, filters the advertised formats for the first display-compatible
one, and fails (disconnect) when none exists; when the controller's
recorded format differs from that preferred format it assigns
`controller.pixel_format` and calls the controller's initialization a
second time.  The result pairs the final controller state with the final
device state. -/
def on_connect_format (requested : String) (d0 : DevState) :
    Option (CtrlState × DevState) :=
  let r1 := ctrlInitFormat { cameraOpen := false, pixelFormat := requested } d0
  let c1 := r1.1
  let d1 := r1.2
  match (d1.advertised.filter displayCompatible).head? with
  | none => none
  | some preferred =>
    if c1.pixelFormat ≠ preferred then
      let r2 := ctrlInitFormat { c1 with pixelFormat := preferred } d1
      some (r2.1, r2.2)
    else
      some (c1, d1)

/-! ## Claim theorems for the frame-acquisition engine -/

/-- C1: for every driver-side environment (frame status, conversion
failure or success, requeue outcome), one `_frame_handler` invocation
performs the buffer re-submission call `cam.queue_frame` exactly once
before returning — the `finally` placement makes this independent of
whether the frame copy succeeds or an exception is raised while
processing. -/
theorem frame_handler_requeues_exactly_once (env : HandlerEnv) :
    (frameHandlerTrace env).count HandlerAction.queueFrame = 1 := by
  rcases env with ⟨st, cr, ro⟩
  cases st <;> cases cr <;> cases ro <;> rfl

/-- C2: the code, evaluated at the failing input (a handler invocation
whose `cam.queue_frame` call raises `VmbCameraError`), invokes
`self.stop_stream()` synchronously on the callback's own thread — its
action appears in the handler's own trace — contradicting the claim that
stream shutdown from the callback is always deferred/queued. -/
theorem frame_handler_calls_stop_stream_synchronously :
    HandlerAction.callStopStreamSync ∈
      frameHandlerTrace
        { status := FrameStatus.Complete, convertRaises := false,
          requeue := RequeueOutcome.vmbError } := by
  decide

/-- C10: after `stop_stream` returns on a streaming controller with an
open camera, the `current_frame` slot is cleared — whatever the outcome
of the `cam.stop_streaming()` call (success, `VmbCameraError`, or other
exception) — so a subsequent `get_current_frame` returns `none`. -/
theorem stop_stream_clears_frame_slot (s : CamState) (env : StopOutcome)
    (hrun : s.isRunning = true) (hcam : s.hasCamera = true) :
    get_current_frame (stop_stream s env).1 = none ∧
      (stop_stream s env).1.isRunning = false := by
  cases env <;>
    simp [stop_stream, get_current_frame, hrun, hcam]

/-- C10 witness: the theorem applied to a concrete streaming state
holding a cached frame, with the halt command raising `VmbCameraError`. -/
theorem stop_stream_clears_frame_slot_witness :
    ({ isRunning := true, hasCamera := true, currentFrame := some 7 } :
        CamState).isRunning = true ∧
    ({ isRunning := true, hasCamera := true, currentFrame := some 7 } :
        CamState).hasCamera = true ∧
    (get_current_frame
        (stop_stream
          { isRunning := true, hasCamera := true, currentFrame := some 7 }
          StopOutcome.vmbError).1 = none ∧
      (stop_stream
          { isRunning := true, hasCamera := true, currentFrame := some 7 }
          StopOutcome.vmbError).1.isRunning = false) :=
  ⟨rfl, rfl,
    stop_stream_clears_frame_slot
      { isRunning := true, hasCamera := true, currentFrame := some 7 }
      StopOutcome.vmbError rfl rfl⟩

/-- C4 counterexample: with streaming active and a camera open, a
single-shot capture is not rejected — the device frame request is issued
(2000 ms timeout) and the completed frame is returned, contradicting the
claim that the call is rejected with a defined error and performs no
device frame request. -/
theorem capture_frame_while_streaming_not_rejected :
    capture_frame
        { isRunning := true, hasCamera := true, currentFrame := none }
        (GetFrameOutcome.frame FrameStatus.Complete) =
      { warnedStreaming := true, deviceRequestTimeoutMs := some 2000,
        returnedFrame := true } := by
  decide

/-- C4 amended: whenever a camera is open, `capture_frame` always issues
the device frame request with the 2000 ms timeout — also while streaming
is active, in which case it additionally logs a warning — and returns a
frame exactly when the request yields a `Complete` frame. -/
theorem capture_frame_proceeds_with_timeout (s : CamState)
    (env : GetFrameOutcome) (hcam : s.hasCamera = true) :
    (capture_frame s env).deviceRequestTimeoutMs = some 2000 ∧
    (capture_frame s env).warnedStreaming = s.isRunning ∧
    ((capture_frame s env).returnedFrame = true ↔
      env = GetFrameOutcome.frame FrameStatus.Complete) := by
  rcases env with st | _ | _ <;>
    first
    | (cases st <;> simp [capture_frame, hcam])
    | simp [capture_frame, hcam]

/-- C4 amended witness: the amended theorem applied to a streaming state
whose frame request returns a complete frame. -/
theorem capture_frame_proceeds_with_timeout_witness :
    ({ isRunning := true, hasCamera := true, currentFrame := none } :
        CamState).hasCamera = true ∧
    ((capture_frame
        { isRunning := true, hasCamera := true, currentFrame := none }
        (GetFrameOutcome.frame FrameStatus.Complete)).deviceRequestTimeoutMs =
          some 2000 ∧
      (capture_frame
        { isRunning := true, hasCamera := true, currentFrame := none }
        (GetFrameOutcome.frame FrameStatus.Complete)).warnedStreaming =
          ({ isRunning := true, hasCamera := true, currentFrame := none } :
            CamState).isRunning ∧
      ((capture_frame
        { isRunning := true, hasCamera := true, currentFrame := none }
        (GetFrameOutcome.frame FrameStatus.Complete)).returnedFrame = true ↔
        GetFrameOutcome.frame FrameStatus.Complete =
          GetFrameOutcome.frame FrameStatus.Complete)) :=
  ⟨rfl,
    capture_frame_proceeds_with_timeout
      { isRunning := true, hasCamera := true, currentFrame := none }
      (GetFrameOutcome.frame FrameStatus.Complete) rfl⟩

/-- C7 counterexample: requesting device identifier `X` when only a
camera with id `A`, serial `S`, model `M` enumerates does not fail with
`NotFound` — the selection succeeds, falling back (warning flag `true`)
to that first, non-matching camera. -/
theorem select_camera_unmatched_id_falls_back :
    selectCamera (some ("X" : String))
        [{ camId := ("A" : String), serial := ("S" : String),
           modelName := ("M" : String) }] =
      some ({ camId := ("A" : String), serial := ("S" : String),
              modelName := ("M" : String) }, true) := by
  decide

/-- C7 amended: when at least one camera enumerates and the requested
identifier matches none of them (by id, serial, or model), the
controller logs a fallback warning and opens the first enumerated
camera; it fails only when no cameras enumerate at all. -/
theorem select_camera_fallback_behavior (cid : String) (c0 : CamInfo)
    (rest : List CamInfo)
    (hnone : (c0 :: rest).find? (fun c => camMatches cid c) = none) :
    selectCamera (some cid) (c0 :: rest) = some (c0, true) ∧
      selectCamera (some cid) [] = none := by
  constructor
  · simp [selectCamera, hnone]
  · rfl

/-- C7 amended witness: the amended theorem applied to identifier `X`
and the single enumerated camera `(A, S, M)`. -/
theorem select_camera_fallback_behavior_witness :
    ([{ camId := ("A" : String), serial := ("S" : String),
        modelName := ("M" : String) }] :
        List CamInfo).find? (fun c => camMatches ("X" : String) c) = none ∧
    (selectCamera (some ("X" : String))
        [{ camId := ("A" : String), serial := ("S" : String),
           modelName := ("M" : String) }] =
      some ({ camId := ("A" : String), serial := ("S" : String),
              modelName := ("M" : String) }, true) ∧
      selectCamera (some ("X" : String)) ([] : List CamInfo) = none) :=
  ⟨by decide,
    select_camera_fallback_behavior ("X" : String)
      { camId := ("A" : String), serial := ("S" : String),
        modelName := ("M" : String) } [] (by decide)⟩

/-- C6: the code, evaluated at the failing input (requested format
`Rgb8` not advertised; device advertising `Mono12` then `Bgr8` with
`Mono12` active): the connect flow succeeds and records `Bgr8` — the
first display-compatible advertised format — in the controller, but the
device's active format remains `Mono12`, because the second
initialization call that was meant to apply the substitution returns
early when the camera is already open.  The claim that the first
display-compatible format is selected (made active) therefore fails. -/
theorem connect_format_substitution_not_applied :
    on_connect_format ("Rgb8" : String)
        { advertised := [("Mono12" : String), ("Bgr8" : String)],
          active := ("Mono12" : String) } =
      some ({ cameraOpen := true, pixelFormat := ("Bgr8" : String) },
            { advertised := [("Mono12" : String), ("Bgr8" : String)],
              active := ("Mono12" : String) }) ∧
      displayCompatible ("Mono12" : String) = false := by
  constructor
  · rfl
  · rfl

/-! ## Motion program data model (`src/gui/actuator_control.py`)

Step values carry the fields built by `ActuatorControlWidget.add_step`
(lines 506-563); numeric parameters are modelled as rationals and the
unit/direction selections as strings. -/

/-- Motion step variants with the parameter fields assembled by
`add_step` for each `ActionType`. -/
inductive StepAction where
  | moveAbsolute (position speed : Rat) (unit : String)
  | moveRelative (distance speed : Rat) (unit : String)
  | home (speed : Rat)
  | pause (duration : Rat)
  | setSpeed (speed : Rat) (unit : String)
  | scan (speed : Rat) (direction : String) (duration : Rat) (unit : String)
deriving DecidableEq

/-- Value of one serialized parameter: a number or a string. -/
inductive JVal where
  | num (q : Rat)
  | str (s : String)
deriving DecidableEq

/-- Serialized form of one step: a type tag and its parameter fields, as
one entry of the program document's `sequence` array. -/
structure StepDoc where
  type : String
  params : List (String × JVal)
deriving DecidableEq

/-- Lookup of a named parameter in a serialized step entry. -/
def lookupParam (ps : List (String × JVal)) (k : String) : Option JVal :=
  (ps.find? (fun p => p.1 = k)).map (fun p => p.2)

/-- Modelled from the spec: `StepAction.to_dict` lives in the
`xeryon_sequence_builder` module, which is not part of the sources
here; per the spec's program-document shape, each entry carries a type
tag and exactly the variant's fields as params. -/
def StepAction.to_dict : StepAction → StepDoc
  | StepAction.moveAbsolute p s u =>
      { type := ("move_absolute" : String),
        params := [(("position" : String), JVal.num p),
                   (("speed" : String), JVal.num s),
                   (("unit" : String), JVal.str u)] }
  | StepAction.moveRelative d s u =>
      { type := ("move_relative" : String),
        params := [(("distance" : String), JVal.num d),
                   (("speed" : String), JVal.num s),
                   (("unit" : String), JVal.str u)] }
  | StepAction.home s =>
      { type := ("home" : String),
        params := [(("speed" : String), JVal.num s)] }
  | StepAction.pause d =>
      { type := ("pause" : String),
        params := [(("duration" : String), JVal.num d)] }
  | StepAction.setSpeed s u =>
      { type := ("set_speed" : String),
        params := [(("speed" : String), JVal.num s),
                   (("unit" : String), JVal.str u)] }
  | StepAction.scan s dir d u =>
      { type := ("scan" : String),
        params := [(("speed" : String), JVal.num s),
                   (("direction" : String), JVal.str dir),
                   (("duration" : String), JVal.num d),
                   (("unit" : String), JVal.str u)] }

/-- Modelled from the spec: `StepAction.from_dict` (also from the absent
`xeryon_sequence_builder` module) rebuilds a step from a serialized
entry, reading exactly the fields of the tagged variant; a missing or
ill-typed field fails. -/
def StepAction.from_dict (d : StepDoc) : Option StepAction :=
  if d.type = ("move_absolute" : String) then
    match lookupParam d.params ("position" : String),
        lookupParam d.params ("speed" : String),
        lookupParam d.params ("unit" : String) with
    | some (JVal.num p), some (JVal.num s), some (JVal.str u) =>
        some (StepAction.moveAbsolute p s u)
    | _, _, _ => none
  else if d.type = ("move_relative" : String) then
    match lookupParam d.params ("distance" : String),
        lookupParam d.params ("speed" : String),
        lookupParam d.params ("unit" : String) with
    | some (JVal.num p), some (JVal.num s), some (JVal.str u) =>
        some (StepAction.moveRelative p s u)
    | _, _, _ => none
  else if d.type = ("home" : String) then
    match lookupParam d.params ("speed" : String) with
    | some (JVal.num s) => some (StepAction.home s)
    | _ => none
  else if d.type = ("pause" : String) then
    match lookupParam d.params ("duration" : String) with
    | some (JVal.num s) => some (StepAction.pause s)
    | _ => none
  else if d.type = ("set_speed" : String) then
    match lookupParam d.params ("speed" : String),
        lookupParam d.params ("unit" : String) with
    | some (JVal.num s), some (JVal.str u) => some (StepAction.setSpeed s u)
    | _, _ => none
  else if d.type = ("scan" : String) then
    match lookupParam d.params ("speed" : String),
        lookupParam d.params ("direction" : String),
        lookupParam d.params ("duration" : String),
        lookupParam d.params ("unit" : String) with
    | some (JVal.num s), some (JVal.str dir), some (JVal.num du),
        some (JVal.str u) => some (StepAction.scan s dir du u)
    | _, _, _, _ => none
  else none

/-- Round trip of one step through its serialized entry. -/
theorem stepAction_from_to (st : StepAction) :
    StepAction.from_dict (StepAction.to_dict st) = some st := by
  cases st <;> rfl

/-! ## Sequence-builder widget state and mutation operations
(actuator_control.py lines 506-605) -/

/-- State of `ActuatorControlWidget` relevant to program editing and
persistence: the stored step list, the `running` flag, and the two
loop controls (`loop_check.isChecked()`, `loop_count_spin.value()`). -/
structure ActWidget where
  current_sequence : List StepAction
  running : Bool
  loop_check : Bool
  loop_count_spin : Int
deriving DecidableEq

/-- Embedding of `ActuatorControlWidget.add_step` (lines 506-563) for a
valid action selection: the built step is appended to
`current_sequence`, with no check of the `running` flag. -/
def add_step (w : ActWidget) (step : StepAction) : ActWidget :=
  { w with current_sequence := w.current_sequence ++ [step] }

/-- Embedding of `ActuatorControlWidget.delete_step` (lines 565-571):
the selected row is removed when `0 <= row < len(current_sequence)`,
with no check of the `running` flag. -/
def delete_step (w : ActWidget) (row : Int) : ActWidget :=
  if 0 ≤ row ∧ row < (w.current_sequence.length : Int) then
    { w with current_sequence := w.current_sequence.eraseIdx row.toNat }
  else w

/-- Embedding of `ActuatorControlWidget.clear_sequence` (lines 573-577):
the sequence is emptied, with no check of the `running` flag. -/
def clear_sequence (w : ActWidget) : ActWidget :=
  { w with current_sequence := [] }

/-- Swap of the entries at two positions of a list (both in range,
otherwise the list is unchanged — the widget's list rows are always in
range of the mirrored sequence). -/
def swapAt' (l : List StepAction) (i j : Nat) : List StepAction :=
  match l.get? i, l.get? j with
  | some a, some b => (l.set i b).set j a
  | _, _ => l

/-- Embedding of `ActuatorControlWidget.move_step_up` (lines 579-591):
for a selected row `> 0` the row is swapped with its predecessor, with
no check of the `running` flag.  (The source guards only `row > 0`;
list-widget rows are always below the sequence length.) -/
def move_step_up (w : ActWidget) (row : Int) : ActWidget :=
  if 0 < row ∧ row < (w.current_sequence.length : Int) then
    { w with current_sequence :=
        swapAt' w.current_sequence row.toNat (row.toNat - 1) }
  else w

/-- Embedding of `ActuatorControlWidget.move_step_down` (lines 593-605):
for a selected row with `0 <= row < len - 1` the row is swapped with its
successor, with no check of the `running` flag. -/
def move_step_down (w : ActWidget) (row : Int) : ActWidget :=
  if 0 ≤ row ∧ row < (w.current_sequence.length : Int) - 1 then
    { w with current_sequence :=
        swapAt' w.current_sequence row.toNat (row.toNat + 1) }
  else w

/-! ## Program persistence (actuator_control.py lines 736-807) -/

/-- Program document: the saved JSON object's three fields. -/
structure ProgDoc where
  sequence : List StepDoc
  loop_enabled : Bool
  loop_count : Int
deriving DecidableEq

/-- Embedding of `ActuatorControlWidget.save_sequence` (lines 736-771):
an empty sequence is refused; otherwise the document holds each step's
serialized entry plus the two loop settings. -/
def save_sequence (w : ActWidget) : Option ProgDoc :=
  if w.current_sequence.isEmpty then none
  else
    some { sequence := w.current_sequence.map StepAction.to_dict,
           loop_enabled := w.loop_check,
           loop_count := w.loop_count_spin }

/-- Clamp applied by `loop_count_spin.setValue` (the spin box's range is
1..100, actuator_control.py line 267). -/
def spinClamp (v : Int) : Int := max 1 (min 100 v)

/-- Parse loop of `load_sequence`: each entry is rebuilt in order; a
failing entry aborts the load (the raised exception leaves the outer
handler). -/
def parseSteps : List StepDoc → Option (List StepAction)
  | [] => some []
  | d :: ds =>
    match StepAction.from_dict d, parseSteps ds with
    | some s, some ss => some (s :: ss)
    | _, _ => none

/-- Embedding of `ActuatorControlWidget.load_sequence` (lines 773-807):
the current sequence is cleared, every document entry is rebuilt and
appended, and the two loop controls are set from the document (the spin
box clamping its value to 1..100). -/
def load_sequence (doc : ProgDoc) (w : ActWidget) : Option ActWidget :=
  match parseSteps doc.sequence with
  | none => none
  | some steps =>
    some { w with
             current_sequence := steps,
             loop_check := doc.loop_enabled,
             loop_count_spin := spinClamp doc.loop_count }

/-- Parsing inverts serialization on whole step lists. -/
theorem parseSteps_map_to_dict (l : List StepAction) :
    parseSteps (l.map StepAction.to_dict) = some l := by
  induction l with
  | nil => rfl
  | cons a l ih => simp [parseSteps, stepAction_from_to, ih]

/-! ## Claim theorems for program editing and persistence -/

/-- C5 counterexample: with the `running` flag set, `add_step` is not
rejected — the step is appended and the stored sequence changes, so a
program-mutating operation during a run neither raises a `ProgramBusy`
error nor leaves the sequence unchanged. -/
theorem add_step_while_running_mutates :
    (add_step
        { current_sequence := [StepAction.home 1], running := true,
          loop_check := false, loop_count_spin := 1 }
        (StepAction.pause 2)).current_sequence =
      [StepAction.home 1, StepAction.pause 2] := by
  decide

/-- C5 amended: none of the program-mutating operations consult the
`running` flag; while a run is in progress they mutate the stored
sequence exactly as when idle — `add_step` appends, `clear_sequence`
empties, and for in-range rows `delete_step` removes and the two move
operations swap adjacent steps. -/
theorem mutations_ignore_running_flag (w : ActWidget) (step : StepAction)
    (i : Nat) (hrun : w.running = true)
    (hi : (i : Int) + 1 < (w.current_sequence.length : Int)) :
    (add_step w step).current_sequence = w.current_sequence ++ [step] ∧
    (clear_sequence w).current_sequence = [] ∧
    (delete_step w ((i : Int) + 1)).current_sequence =
      w.current_sequence.eraseIdx (i + 1) ∧
    (move_step_up w ((i : Int) + 1)).current_sequence =
      swapAt' w.current_sequence (i + 1) i ∧
    (move_step_down w (i : Int)).current_sequence =
      swapAt' w.current_sequence i (i + 1) := by
  refine ⟨rfl, rfl, ?_, ?_, ?_⟩
  · have h0 : (0 : Int) ≤ (i : Int) + 1 := by positivity
    simp only [delete_step, h0, hi, and_true, if_true, true_and]
    norm_num [Int.toNat_add]
  · have h0 : (0 : Int) < (i : Int) + 1 := by positivity
    simp only [move_step_up, h0, hi, and_true, if_true, true_and]
    norm_num [Int.toNat_add]
  · have h0 : (0 : Int) ≤ (i : Int) := by positivity
    have hi' : (i : Int) < (w.current_sequence.length : Int) - 1 := by omega
    simp only [move_step_down, h0, hi', and_true, if_true, true_and]
    norm_num

/-- C5 amended witness: the amended theorem applied to a running widget
holding three steps, at row index 1. -/
theorem mutations_ignore_running_flag_witness :
    ({ current_sequence :=
        [StepAction.home 1, StepAction.pause 2,
         StepAction.setSpeed 3 ("mm" : String)],
       running := true, loop_check := false, loop_count_spin := 1 } :
        ActWidget).running = true ∧
    ((1 : Int) + 1 <
      (({ current_sequence :=
            [StepAction.home 1, StepAction.pause 2,
             StepAction.setSpeed 3 ("mm" : String)],
          running := true, loop_check := false, loop_count_spin := 1 } :
          ActWidget).current_sequence.length : Int)) ∧
    (add_step
        { current_sequence :=
            [StepAction.home 1, StepAction.pause 2,
             StepAction.setSpeed 3 ("mm" : String)],
          running := true, loop_check := false, loop_count_spin := 1 }
        (StepAction.moveAbsolute 4 5 ("mm" : String))).current_sequence =
      [StepAction.home 1, StepAction.pause 2,
       StepAction.setSpeed 3 ("mm" : String)] ++
        [StepAction.moveAbsolute 4 5 ("mm" : String)] :=
  ⟨rfl, by decide,
    (mutations_ignore_running_flag
      { current_sequence :=
          [StepAction.home 1, StepAction.pause 2,
           StepAction.setSpeed 3 ("mm" : String)],
        running := true, loop_check := false, loop_count_spin := 1 }
      (StepAction.moveAbsolute 4 5 ("mm" : String)) 1 rfl (by decide)).1⟩

/-- C9: saving a program (non-empty sequence, loop settings within the
spin box's 1..100 range) and loading the resulting document rebuilds,
in any widget, a step sequence and loop settings field-for-field equal
to the saved ones. -/
theorem save_load_round_trip (w w2 : ActWidget) (doc : ProgDoc)
    (hlo : 1 ≤ w.loop_count_spin) (hhi : w.loop_count_spin ≤ 100)
    (hsave : save_sequence w = some doc) :
    load_sequence doc w2 =
      some { w2 with
               current_sequence := w.current_sequence,
               loop_check := w.loop_check,
               loop_count_spin := w.loop_count_spin } := by
  by_cases hne : w.current_sequence.isEmpty
  · simp [save_sequence, hne] at hsave
  · simp only [save_sequence, hne, if_neg, Bool.false_eq_true,
      not_false_iff, ite_false, Option.some.injEq] at hsave
    subst hsave
    simp only [load_sequence, parseSteps_map_to_dict]
    have hclamp : spinClamp w.loop_count_spin = w.loop_count_spin := by
      simp only [spinClamp]
      omega
    simp [hclamp]

/-- C9 witness: the round-trip theorem applied to a concrete two-step
looping program and its saved document, loaded into a widget holding an
unrelated program. -/
theorem save_load_round_trip_witness :
    1 ≤ (3 : Int) ∧ (3 : Int) ≤ 100 ∧
    (save_sequence
        { current_sequence :=
            [StepAction.moveAbsolute 10 1 ("mm" : String), StepAction.pause 2],
          running := false, loop_check := true, loop_count_spin := 3 } =
      some { sequence :=
               [StepAction.to_dict (StepAction.moveAbsolute 10 1 ("mm" : String)),
                StepAction.to_dict (StepAction.pause 2)],
             loop_enabled := true, loop_count := 3 }) ∧
    load_sequence
        { sequence :=
            [StepAction.to_dict (StepAction.moveAbsolute 10 1 ("mm" : String)),
             StepAction.to_dict (StepAction.pause 2)],
          loop_enabled := true, loop_count := 3 }
        { current_sequence := [StepAction.home 9], running := false,
          loop_check := false, loop_count_spin := 7 } =
      some { current_sequence :=
               [StepAction.moveAbsolute 10 1 ("mm" : String), StepAction.pause 2],
             running := false, loop_check := true, loop_count_spin := 3 } :=
  ⟨by decide, by decide, rfl,
    save_load_round_trip
      { current_sequence :=
          [StepAction.moveAbsolute 10 1 ("mm" : String), StepAction.pause 2],
        running := false, loop_check := true, loop_count_spin := 3 }
      { current_sequence := [StepAction.home 9], running := false,
        loop_check := false, loop_count_spin := 7 }
      { sequence :=
          [StepAction.to_dict (StepAction.moveAbsolute 10 1 ("mm" : String)),
           StepAction.to_dict (StepAction.pause 2)],
        loop_enabled := true, loop_count := 3 }
      (by decide) (by decide) rfl⟩

/-! ## Sequence execution engine (actuator_control.py lines 607-674)

`run_sequence` snapshots the loop settings and starts a 100 ms timer on
`_execute_sequence_step`; each timer tick executes at most one step.
The configuration below is the data the tick reads: the sequence length,
the loop count, and — as a driver-side environment — which `(loop, step)`
executions raise. -/

/-- Per-run configuration read by the tick: `len(current_sequence)`,
`loop_count`, and whether `_execute_step` raises at a given
`(loop index, step index)`. -/
structure SeqCfg where
  seqLen : Nat
  loopCount : Nat
  stepFails : Nat → Nat → Bool

/-- Transient execution state of a run: the widget's `running` and
`is_connected` flags, whether the `execute_timer` is active, and the
cursor (`current_step_index`, `current_loop`). -/
structure SeqExec where
  running : Bool
  connected : Bool
  timerActive : Bool
  stepIdx : Nat
  loopIdx : Nat
deriving DecidableEq

/-- Common stop path of `_execute_sequence_step`: `execute_timer.stop()`
and `running = False`. -/
def stopExec (s : SeqExec) : SeqExec :=
  { s with running := false, timerActive := false }

/-- Embedding of `ActuatorControlWidget._execute_sequence_step`
(actuator_control.py lines 634-674), one timer tick.  It stops when the
run was cancelled or disconnected, or when all loops are done; at the
end of a pass it advances the loop index, resets the step index, and
stops if that was the last loop; otherwise it executes the current step
(recorded in the result) and advances the step index, stopping instead
if the step raises. -/
def tick (cfg : SeqCfg) (s : SeqExec) : SeqExec × Option Nat :=
  if s.running = false ∨ s.connected = false then (stopExec s, none)
  else if cfg.loopCount ≤ s.loopIdx then (stopExec s, none)
  else if cfg.seqLen ≤ s.stepIdx then
    let s1 : SeqExec := { s with loopIdx := s.loopIdx + 1, stepIdx := 0 }
    if cfg.loopCount ≤ s1.loopIdx then (stopExec s1, none)
    else if cfg.stepFails s1.loopIdx 0 then (stopExec s1, none)
    else ({ s1 with stepIdx := 1 }, some 0)
  else
    if cfg.stepFails s.loopIdx s.stepIdx then (stopExec s, none)
    else ({ s with stepIdx := s.stepIdx + 1 }, some s.stepIdx)

/-- Inputs of `ActuatorControlWidget.run_sequence` (actuator_control.py
lines 607-632): connection state (covering `is_connected` and `axis`),
the sequence length, and the two loop controls. -/
structure RunInput where
  connected : Bool
  seqLen : Nat
  loopEnabled : Bool
  loopSpin : Nat

/-- Embedding of `ActuatorControlWidget.run_sequence`: refused when
disconnected or the sequence is empty; otherwise the effective loop
count is the spin value when looping is enabled (else 1) and the run
starts with cursor `(step 0, loop 0)`, `running` set, timer active. -/
def run_sequence (inp : RunInput) : Option (Nat × SeqExec) :=
  if inp.connected = false ∨ inp.seqLen = 0 then none
  else
    some ((if inp.loopEnabled then inp.loopSpin else 1),
      { running := true, connected := true, timerActive := true,
        stepIdx := 0, loopIdx := 0 })

/-- Iteration of `tick`: the state after `n` timer ticks together with
the list of executed step indices, in order. -/
def runTicks (cfg : SeqCfg) : SeqExec → Nat → SeqExec × List Nat
  | s, 0 => (s, [])
  | s, n + 1 =>
    let r1 := tick cfg s
    let r2 := runTicks cfg r1.1 n
    (r2.1, r1.2.toList ++ r2.2)

/-- Unfolding of `runTicks` at a successor tick count. -/
theorem runTicks_front (cfg : SeqCfg) (s : SeqExec) (n : Nat) :
    runTicks cfg s (n + 1) =
      ((runTicks cfg (tick cfg s).1 n).1,
       (tick cfg s).2.toList ++ (runTicks cfg (tick cfg s).1 n).2) := rfl

/-- Splitting a `runTicks` iteration into two stretches. -/
theorem runTicks_add (cfg : SeqCfg) (a : Nat) :
    ∀ (b : Nat) (s : SeqExec),
      runTicks cfg s (a + b) =
        ((runTicks cfg (runTicks cfg s a).1 b).1,
         (runTicks cfg s a).2 ++ (runTicks cfg (runTicks cfg s a).1 b).2) := by
  induction a with
  | zero => intro b s; simp [runTicks]
  | succ a ih =>
    intro b s
    have hc : a + 1 + b = (a + b) + 1 := by omega
    rw [hc, runTicks_front, runTicks_front, ih b (tick cfg s).1]
    simp [List.append_assoc]

/-- A tick on a cancelled run only stops the timer. -/
theorem tick_stopped (cfg : SeqCfg) (s : SeqExec) (h : s.running = false) :
    tick cfg s = (stopExec s, none) := by
  simp [tick, h]

/-- A fully stopped state (running flag down, timer stopped) is a fixed
point of the tick loop: no step is ever executed from it. -/
theorem runTicks_halted (cfg : SeqCfg) :
    ∀ (n : Nat) (s : SeqExec), s.running = false → s.timerActive = false →
      runTicks cfg s n = (s, []) := by
  intro n
  induction n with
  | zero => intro s h1 h2; rfl
  | succ n ih =>
    intro s h1 h2
    have hfix : stopExec s = s := by
      cases s
      simp only [stopExec] at *
      simp_all
    rw [runTicks_front, tick_stopped cfg s h1, hfix, ih s h1 h2]
    rfl

/-- Mid-pass ticks: from a running cursor `(i, j)` with `i + n` equal to
the sequence length and loop `j` still to run, `n` ticks execute steps
`i, i+1, ..., i+n-1` in order and leave the cursor at the end of the
pass. -/
theorem runTicks_pass (cfg : SeqCfg)
    (hf : ∀ i j, cfg.stepFails i j = false) :
    ∀ (n i j : Nat) (t : Bool), i + n = cfg.seqLen → j < cfg.loopCount →
      runTicks cfg ⟨true, true, t, i, j⟩ n =
        (⟨true, true, t, cfg.seqLen, j⟩, List.range' i n) := by
  intro n
  induction n with
  | zero =>
    intro i j t hi hj
    have hiL : i = cfg.seqLen := by omega
    subst hiL
    rfl
  | succ n ih =>
    intro i j t hi hj
    have h1 : ¬ (cfg.loopCount ≤ j) := by omega
    have h2 : ¬ (cfg.seqLen ≤ i) := by omega
    have ht : tick cfg ⟨true, true, t, i, j⟩ =
        (⟨true, true, t, i + 1, j⟩, some i) := by
      simp [tick, h1, h2, hf]
    rw [runTicks_front, ht, ih (i + 1) j t (by omega) hj]
    rfl

/-- Pass-boundary tick with loops remaining: the cursor rolls over to
the next loop and immediately executes step 0. -/
theorem tick_rollover_continue (cfg : SeqCfg)
    (hf : ∀ i j, cfg.stepFails i j = false) (si j : Nat) (t : Bool)
    (hsi : cfg.seqLen ≤ si) (hj : j + 1 < cfg.loopCount) :
    tick cfg ⟨true, true, t, si, j⟩ = (⟨true, true, t, 1, j + 1⟩, some 0) := by
  have h1 : ¬ (cfg.loopCount ≤ j) := by omega
  have h3 : ¬ (cfg.loopCount ≤ j + 1) := by omega
  simp [tick, h1, hsi, h3, hf]

/-- Pass-boundary tick on the last loop: the cursor rolls over, the loop
bound is reached, and the run stops. -/
theorem tick_rollover_stop (cfg : SeqCfg) (si j : Nat) (t : Bool)
    (hsi : cfg.seqLen ≤ si) (hj : j < cfg.loopCount)
    (hj1 : cfg.loopCount ≤ j + 1) :
    tick cfg ⟨true, true, t, si, j⟩ = (⟨false, true, false, 0, j + 1⟩, none) := by
  have h1 : ¬ (cfg.loopCount ≤ j) := by omega
  simp [tick, h1, hsi, hj1, stopExec]

/-- One full pass from a pass boundary with loops remaining: the next
`seqLen` ticks execute steps `0, ..., seqLen-1` in order and return the
cursor to the pass boundary with the loop index advanced. -/
theorem runTicks_one_pass (cfg : SeqCfg)
    (hf : ∀ i j, cfg.stepFails i j = false) (hL : 1 ≤ cfg.seqLen)
    (si j : Nat) (t : Bool) (hsi : cfg.seqLen ≤ si)
    (hj : j + 1 < cfg.loopCount) :
    runTicks cfg ⟨true, true, t, si, j⟩ cfg.seqLen =
      (⟨true, true, t, cfg.seqLen, j + 1⟩, List.range' 0 cfg.seqLen) := by
  obtain ⟨n, hn⟩ : ∃ n, cfg.seqLen = n + 1 := ⟨cfg.seqLen - 1, by omega⟩
  have hpass := runTicks_pass cfg hf n 1 (j + 1) t (by omega) hj
  rw [hn, runTicks_front,
    tick_rollover_continue cfg hf si j t hsi hj]
  rw [hn] at hpass
  rw [hpass]
  rfl

/-- Remaining loops plus the final stopping tick: from a pass boundary
with `m` further passes to go, `m * seqLen + 1` ticks execute the whole
sequence `m` more times and then stop the run with the timer halted and
the loop index at the loop count. -/
theorem runTicks_finish (cfg : SeqCfg)
    (hf : ∀ i j, cfg.stepFails i j = false) (hL : 1 ≤ cfg.seqLen) :
    ∀ (m si j : Nat) (t : Bool), cfg.seqLen ≤ si →
      j + m + 1 = cfg.loopCount →
      runTicks cfg ⟨true, true, t, si, j⟩ (m * cfg.seqLen + 1) =
        (⟨false, true, false, 0, cfg.loopCount⟩,
         (List.replicate m (List.range' 0 cfg.seqLen)).flatten) := by
  intro m
  induction m with
  | zero =>
    intro si j t hsi hj
    have hstop := tick_rollover_stop cfg si j t hsi (by omega) (by omega)
    have hout : (0 : Nat) * cfg.seqLen + 1 = 0 + 1 := by omega
    rw [hout, runTicks_front, hstop]
    have hjk : j + 1 = cfg.loopCount := by omega
    rw [hjk]
    rfl
  | succ m ih =>
    intro si j t hsi hj
    have hsplit : (m + 1) * cfg.seqLen + 1 =
        cfg.seqLen + (m * cfg.seqLen + 1) := by
      rw [Nat.succ_mul]; omega
    rw [hsplit, runTicks_add,
      runTicks_one_pass cfg hf hL si j t hsi (by omega)]
    rw [ih cfg.seqLen (j + 1) t (le_refl _) (by omega)]
    simp [List.replicate_succ]

/-- Occurrence count of one index in a flattened replication. -/
theorem count_flatten_replicate (n : Nat) (l : List Nat) (a : Nat) :
    ((List.replicate n l).flatten).count a = n * l.count a := by
  induction n with
  | zero => simp
  | succ n ih =>
    simp [List.replicate_succ, ih, Nat.succ_mul]
    omega

/-- Each in-range index occurs once per pass in the tick trace shape. -/
theorem count_range'_of_lt (L a : Nat) (h : a < L) :
    (List.range' 0 L).count a = 1 := by
  rw [← List.range_eq_range']
  have hmem : a ∈ List.range L := List.mem_range.mpr h
  have hnd : (List.range L).Nodup := List.nodup_range L
  exact List.count_eq_one_of_mem hnd hmem

/-- C3: starting a run over a non-empty sequence of length `L` with
looping enabled and loop count `k ≥ 1` (and no step raising), the tick
function executes, across `k*L + 1` timer ticks and any number of
further ticks, exactly the index trace of `k` passes over
`0, ..., L-1` in program order; the final state has the cursor's timer
destroyed and the running flag cleared, no step is executed after the
`k`-th pass completes, and each step index below `L` is executed
exactly `k` times. -/
theorem sequence_run_executes_k_passes (L k m : Nat) (f : Nat → Nat → Bool)
    (hL : 1 ≤ L) (hk : 1 ≤ k) (hf : ∀ i j, f i j = false) :
    run_sequence
        { connected := true, seqLen := L, loopEnabled := true,
          loopSpin := k } =
      some (k,
        { running := true, connected := true, timerActive := true,
          stepIdx := 0, loopIdx := 0 }) ∧
    runTicks { seqLen := L, loopCount := k, stepFails := f }
        { running := true, connected := true, timerActive := true,
          stepIdx := 0, loopIdx := 0 } (k * L + 1 + m) =
      ({ running := false, connected := true, timerActive := false,
         stepIdx := 0, loopIdx := k },
       (List.replicate k (List.range' 0 L)).flatten) ∧
    (∀ idx, idx < L →
      ((List.replicate k (List.range' 0 L)).flatten).count idx = k) := by
  obtain ⟨k1, rfl⟩ : ∃ k1, k = k1 + 1 := ⟨k - 1, by omega⟩
  refine ⟨?_, ?_, ?_⟩
  · have hL0 : L ≠ 0 := by omega
    simp [run_sequence, hL0]
  · set cfg : SeqCfg := { seqLen := L, loopCount := k1 + 1, stepFails := f }
      with hcfg
    have hLc : cfg.seqLen = L := rfl
    have hsplit : (k1 + 1) * L + 1 + m = L + ((k1 * L + 1) + m) := by
      rw [Nat.succ_mul]; omega
    rw [hsplit, runTicks_add]
    have h1 := runTicks_pass cfg hf L 0 0 true (by simp [hcfg]) (by simp [hcfg])
    rw [h1]
    rw [runTicks_add]
    have h2 := runTicks_finish cfg hf (by simp [hcfg]; omega) k1 cfg.seqLen 0
      true (le_refl _) (by simp [hcfg])
    rw [hLc] at h2
    rw [h2]
    rw [runTicks_halted cfg m _ rfl rfl]
    simp [hcfg, List.replicate_succ]
  · intro idx hidx
    rw [count_flatten_replicate, count_range'_of_lt L idx hidx]
    omega

/-- C3 witness: the theorem applied to a two-step sequence, loop count
3, two extra ticks past completion, and a step environment that never
raises. -/
theorem sequence_run_executes_k_passes_witness :
    1 ≤ 2 ∧ 1 ≤ 3 ∧
    (∀ i j, (fun _ _ => false : Nat → Nat → Bool) i j = false) ∧
    (run_sequence
        { connected := true, seqLen := 2, loopEnabled := true,
          loopSpin := 3 } =
      some (3,
        { running := true, connected := true, timerActive := true,
          stepIdx := 0, loopIdx := 0 }) ∧
    runTicks { seqLen := 2, loopCount := 3, stepFails := fun _ _ => false }
        { running := true, connected := true, timerActive := true,
          stepIdx := 0, loopIdx := 0 } (3 * 2 + 1 + 2) =
      ({ running := false, connected := true, timerActive := false,
         stepIdx := 0, loopIdx := 3 },
       (List.replicate 3 (List.range' 0 2)).flatten) ∧
    (∀ idx, idx < 2 →
      ((List.replicate 3 (List.range' 0 2)).flatten).count idx = 3)) :=
  ⟨by decide, by decide, fun i j => rfl,
    sequence_run_executes_k_passes 2 3 2 (fun _ _ => false)
      (by decide) (by decide) (fun i j => rfl)⟩

/-! ## Feature write and read-back (vmpy_camera.py lines 465-481,
camera_display.py lines 679-697)

The firmware's clamping of a written value is the device-side
environment: `clamp v` is the value the device actually holds after a
write request of `v`. -/

/-- Device-side behavior of one numeric feature: the value the firmware
holds after a write request of a given value. -/
structure FeatureDevice where
  clamp : Rat → Rat

/-- Observable result of one `set_feature_value` call: the returned
boolean, the value the device holds afterwards, and how many read-backs
of the feature the call performed. -/
structure SetFeatureLog where
  ret : Bool
  deviceValue : Rat
  readbackCount : Nat
deriving DecidableEq

/-- Embedding of `VMPyCameraController.set_feature_value` (vmpy_camera.py
lines 465-481): with no camera it returns `False`; a raising write
returns `False`; otherwise the write is issued and the call returns
`True` — it never reads the feature back. -/
def set_feature_value (hasCam : Bool) (writeRaises : Bool)
    (dev : FeatureDevice) (held requested : Rat) : SetFeatureLog :=
  if hasCam = false then
    { ret := false, deviceValue := held, readbackCount := 0 }
  else if writeRaises then
    { ret := false, deviceValue := held, readbackCount := 0 }
  else
    { ret := true, deviceValue := dev.clamp requested, readbackCount := 0 }

/-- Truncating conversion from a rational to an integer, as Python's
`int()` applied to a float. -/
def ratTruncInt (q : Rat) : Int := if 0 ≤ q then ⌊q⌋ else ⌈q⌉

/-- Observable result of the gain-slider handler: the slider/display
value it sets (in tenths of a dB) and whether the not-applied warning
was raised. -/
structure GainUiLog where
  displayedTenths : Int
  warned : Bool
deriving DecidableEq

/-- Embedding of the `set_gain` body of
`CameraDisplayWidget.on_gain_slider_changed` (camera_display.py lines
679-697): the requested gain is `value/10` dB; after the write the
feature is read back, the slider is set to the read-back value, and a
warning is raised when the read-back differs from the request by more
than 0.05. -/
def on_gain_slider_changed (dev : FeatureDevice) (value : Int) : GainUiLog :=
  let gain_db : Rat := (value : Rat) / 10
  let actual := dev.clamp gain_db
  { displayedTenths := ratTruncInt (actual * 10),
    warned := if (1 : Rat) / 20 < |actual - gain_db| then true else false }

/-- C8 counterexample: against a device that pins the feature at 0, a
`set_feature_value` write of 5 performs no read-back at all and returns
`True` — reporting the write as applied while the device holds 0 ≠ 5 —
contradicting the claim that every feature write is followed by a
read-back and a differing actual value is surfaced with a warning. -/
theorem set_feature_value_no_readback :
    set_feature_value true false { clamp := fun _ => 0 } 0 5 =
      { ret := true, deviceValue := 0, readbackCount := 0 } ∧
    (0 : Rat) ≠ 5 := by
  constructor
  · rfl
  · norm_num

/-- C8 amended: the generic `set_feature_value` performs zero read-backs
and returns `True` whenever the write call does not raise, whatever the
device holds; only the GUI gain handler follows its write with a
read-back, displays the actual (read-back) value, and raises the
not-applied warning exactly when the actual value differs from the
request by more than the fixed 0.05 dB tolerance — so that handler
never leaves a silent deviation beyond that tolerance. -/
theorem feature_readback_only_in_gain_handler (dev : FeatureDevice)
    (held requested : Rat) (value : Int) :
    (set_feature_value true false dev held requested).readbackCount = 0 ∧
    (set_feature_value true false dev held requested).ret = true ∧
    (set_feature_value true false dev held requested).deviceValue =
      dev.clamp requested ∧
    (on_gain_slider_changed dev value).displayedTenths =
      ratTruncInt (dev.clamp ((value : Rat) / 10) * 10) ∧
    ((on_gain_slider_changed dev value).warned = false ↔
      |dev.clamp ((value : Rat) / 10) - (value : Rat) / 10| ≤ 1 / 20) := by
  refine ⟨rfl, rfl, rfl, rfl, ?_⟩
  by_cases h : (1 : Rat) / 20 < |dev.clamp ((value : Rat) / 10) - (value : Rat) / 10|
  · simp [on_gain_slider_changed, h, not_le.mpr h]
  · simp [on_gain_slider_changed, h, not_lt.mp h]
